import Mathlib

/-!
Verification of `src/ansible/playbooks/oled_monitor.py` (pi-server).

The Python program is shallowly embedded below: pure helpers become Lean
functions; the `Scroller` class becomes a structure with functional updates;
the shared `DataStore` becomes a finite map with an explicit refresh step;
the main render loop becomes a state-transition function parameterised by the
wall-clock reading and the external inputs of one tick.  External collaborators
(PIL font metrics and glyph rasterisation, psutil readings, socket probes) are
modelled as explicit parameters; fallible external calls are `Except` values.
-/

namespace OledMonitor

/-! ### Configuration constants (verbatim from the source) -/

def PAGE_FLIP_SEC : ℕ := 5
def DISPLAY_W : ℕ := 128
def DISPLAY_H : ℕ := 64
def LINE_HEIGHT : ℕ := 14
def SCROLL_SPEED : ℕ := 1
def SCROLL_GAP : ℕ := 28

def Y_LINE1 : ℕ := 1
def Y_LINE2 : ℕ := Y_LINE1 + LINE_HEIGHT
def Y_DIVIDER : ℕ := Y_LINE2 + LINE_HEIGHT + 1
def Y_LINE3 : ℕ := Y_DIVIDER + 3
def Y_LINE4 : ℕ := Y_LINE3 + LINE_HEIGHT

/-! ### Wall-clock page selection

`page = int(time.time() / PAGE_FLIP_SEC) % 2`.  Python `int()` truncates a
float toward zero, and Python `%` on a positive modulus returns a value in
`[0, modulus)`, which is `Int.emod`'s behaviour, Lean's `%` on `ℤ`. -/

def pyTrunc (q : ℚ) : ℤ := if 0 ≤ q then ⌊q⌋ else ⌈q⌉

def pageOf (t : ℚ) : ℤ := pyTrunc (t / (PAGE_FLIP_SEC : ℚ)) % 2

/-! ### Fonts and text measurement

The program loads exactly two font objects (`font`, `font_bold`); `Scroller.set`
compares font objects for equality.  Pixel measurement
(`text_px_width = bbox[2] - bbox[0]` from PIL's `getbbox`) is external: it is
modelled by a metrics environment mapping a font and a string to a width. -/

inductive FontId : Type
  | default : FontId
  | bold : FontId
deriving DecidableEq, Repr

abbrev Metrics : Type := FontId → String → ℕ

def text_px_width (M : Metrics) (text : String) (f : FontId) : ℕ := M f text

/-! ### The Scroller class -/

structure Scroller where
  offset : ℕ
  text : String
  fontv : FontId
  width : ℕ
  scrolling : Bool
  maxH : ℕ
deriving DecidableEq, Repr

def Scroller.init (maxHeight : ℕ) : Scroller :=
  { offset := 0, text := "", fontv := FontId.default, width := 0,
    scrolling := false, maxH := maxHeight }

def Scroller.set (s : Scroller) (M : Metrics) (text : String) (f : FontId) : Scroller :=
  if text ≠ s.text ∨ f ≠ s.fontv then
    { s with text := text, fontv := f, width := text_px_width M text f,
             scrolling := decide (text_px_width M text f > DISPLAY_W),
             offset := 0 }
  else s

def Scroller.reset (s : Scroller) : Scroller := { s with offset := 0 }

def Scroller.tick (s : Scroller) : Scroller :=
  if s.scrolling then
    if s.offset + SCROLL_SPEED ≥ s.width + SCROLL_GAP then { s with offset := 0 }
    else { s with offset := s.offset + SCROLL_SPEED }
  else s

/-- States reachable from a freshly constructed scroller by any sequence of
`set` / `reset` / `tick` calls. -/
inductive Scroller.Reachable : Scroller → Prop
  | init (h : ℕ) : Scroller.Reachable (Scroller.init h)
  | set (s : Scroller) (M : Metrics) (text : String) (f : FontId) :
      Scroller.Reachable s → Scroller.Reachable (s.set M text f)
  | reset (s : Scroller) : Scroller.Reachable s → Scroller.Reachable s.reset
  | tick (s : Scroller) : Scroller.Reachable s → Scroller.Reachable s.tick

/-! ### Images and Scroller.draw_onto

Monochrome images are pixel functions `(x, y) ↦ Bool`.  PIL specifics used by
`draw_onto`:
* `Image.new("1", (w, h), 0)` is all-black;
* `draw.text((x0, 0), text, ...)` rasterises glyph pixels; the rasterised
  content of one text in one font is abstracted as a glyph function
  `g : ℕ → ℕ → Bool`; drawing at horizontal position `x0` lights `(x0+x, y)`
  whenever `g x y` (clipped to the target image bounds);
* `crop` reads pixels inside the box and pads with black outside the source;
* `paste` at `(0, y)` replaces the destination pixels covered by the pasted
  image and leaves everything else untouched. -/

abbrev Image : Type := ℕ → ℕ → Bool

def blankImage : Image := fun _ _ => false

/-- The double band built by the scrolling branch of `draw_onto`: a
`2·loopW`-wide temporary image with the text drawn at x = 0 and again at
x = loopW (`loop_w = width + SCROLL_GAP`). -/
def scrollBand (g : ℕ → ℕ → Bool) (loopW : ℕ) : Image :=
  fun x y =>
    if x < 2 * loopW then g x y || (decide (loopW ≤ x) && g (x - loopW) y)
    else false

/-- The `DISPLAY_W`-wide crop of the double band starting at `offset`
(`tmp.crop((offset, 0, offset + DISPLAY_W, max_h))`). -/
def scrollCrop (g : ℕ → ℕ → Bool) (loopW offset : ℕ) : Image :=
  fun x y => scrollBand g loopW (offset + x) y

/-- The `DISPLAY_W × max_h` temporary image of the static branch: the text
drawn once at the origin. -/
def staticBand (g : ℕ → ℕ → Bool) : Image := fun x y => g x y

/-- `image.paste(band, (0, y))` where `band` is `DISPLAY_W` wide and `h` tall. -/
def pasteBand (img : Image) (band : Image) (y h : ℕ) : Image :=
  fun px py =>
    if px < DISPLAY_W ∧ y ≤ py ∧ py < y + h then band px (py - y) else img px py

/-- `Scroller.draw_onto`, with the glyph rasterisation of the current text in
the current font supplied as `g`. -/
def Scroller.draw_onto (s : Scroller) (g : ℕ → ℕ → Bool) (img : Image) (y : ℕ) : Image :=
  if s.scrolling then
    pasteBand img (scrollCrop g (s.width + SCROLL_GAP) s.offset) y s.maxH
  else
    pasteBand img (staticBand g) y s.maxH

/-- `draw.line([(x0, yr), (x1, yr)], fill=255)`: PIL lights both endpoints and
clips to the image bounds. -/
def drawHLine (img : Image) (yr x0 x1 : ℕ) : Image :=
  fun px py =>
    if py = yr ∧ x0 ≤ px ∧ px ≤ x1 ∧ px < DISPLAY_W ∧ py < DISPLAY_H then true
    else img px py

/-- `draw.ellipse([x0, y0, x1, y1], fill=..., outline=255)`: PIL paints pixels
only inside the bounding box, clipped to the image; the exact painted shape
(which depends on fill and outline) is abstracted as `shape`. -/
def drawEllipse (shape : ℕ → ℕ → Bool) (img : Image) (x0 y0 x1 y1 : ℕ) : Image :=
  fun px py =>
    if x0 ≤ px ∧ px ≤ x1 ∧ y0 ≤ py ∧ py ≤ y1 ∧ px < DISPLAY_W ∧ py < DISPLAY_H
    then shape px py
    else img px py

/-! ### Python number formatting

`f"{x:.0f}"` and `f"{x:.1f}"` round to the nearest integer / tenth with ties
to even. -/

def rndHalfEven (q : ℚ) : ℤ :=
  if Int.fract q < 1 / 2 then ⌊q⌋
  else if 1 / 2 < Int.fract q then ⌊q⌋ + 1
  else if Even ⌊q⌋ then ⌊q⌋ else ⌊q⌋ + 1

def fmtF0 (q : ℚ) : String := toString (rndHalfEven q)

def fmtF1 (q : ℚ) : String :=
  let n : ℤ := rndHalfEven (q * 10)
  if 0 ≤ n then toString (n.toNat / 10) ++ "." ++ toString (n.toNat % 10)
  else "-" ++ toString ((-n).toNat / 10) ++ "." ++ toString ((-n).toNat % 10)

/-! ### Metric collectors

Fallible external calls are `Except Unit` values; a collector that the Python
code wraps in `try/except` consumes the `Except` itself, one it does not wrap
passes the failure on to its caller (`refresh`). -/

/-- `get_ip`: the UDP-connect probe returns the local address, any failure is
caught and yields `"No IP"`. -/
def get_ip (conn : Except Unit String) : String :=
  match conn with
  | Except.ok ip => ip
  | Except.error _ => "No IP"

/-- `get_ram_label`: bucket total memory bytes into a size tier via
`gb = total / 1024**3` (exact in double precision for any realistic total,
so modelled as exact rational division). -/
def get_ram_label (total : ℕ) : String :=
  if (total : ℚ) / 1024 ^ 3 < 3 then "2GB"
  else if (total : ℚ) / 1024 ^ 3 < 6 then "4GB"
  else "8GB"

/-- Temperature part of `get_cpu`: `temp = 0.0`; try the thermal-zone file
(millidegrees); on failure probe the three sensor keys in order, first
present-and-nonempty key wins, else the temperature stays `0.0`. -/
def cpuTemp (tempFile : Except Unit ℤ) (sensors : String → Option ℚ) : ℚ :=
  match tempFile with
  | Except.ok m => (m : ℚ) / 1000
  | Except.error _ =>
    match sensors "cpu_thermal" with
    | some c => c
    | none =>
      match sensors "cpu-thermal" with
      | some c => c
      | none => (sensors "coretemp").getD 0

/-- `get_cpu`: `f"CPU:{pct:.0f}%  T:{temp:.1f}C"`. -/
def get_cpu (pct : ℚ) (tempFile : Except Unit ℤ) (sensors : String → Option ℚ) : String :=
  "CPU:" ++ fmtF0 pct ++ "%  T:" ++ fmtF1 (cpuTemp tempFile sensors) ++ "C"

/-- One entry of the psutil interface traversal in `get_network`: name, link-up
flag, and whether it has a non-loopback `AF_INET` address. -/
structure IfaceInfo where
  name : String
  isup : Bool
  hasIPv4 : Bool
deriving DecidableEq, Repr

/-- The interface-abbreviation loop of `get_network`. -/
def netIfaceAbbrevs (l : List IfaceInfo) : List String :=
  (l.filter fun i => i.isup && decide (i.name ≠ "lo") && i.hasIPv4).map
    fun i => ((i.name.replace "ethernet" "eth").take 5)

/-- `get_network`: the TCP-connect probe sets `up` (failure caught); the
string is `f"Net:{'&'.join(ifaces) or 'None'} [{'UP' if up else 'DOWN'}]"`
(an empty join is falsy, hence `"None"`). -/
def get_network (conn : Except Unit Unit) (l : List IfaceInfo) : String :=
  let joined := String.intercalate "&" (netIfaceAbbrevs l)
  "Net:" ++ (if joined = "" then "None" else joined) ++
    " [" ++ (if conn.isOk then "UP" else "DOWN") ++ "]"

/-- `get_disk`: `f"Disk:{used/1024**3:.1f}/{total/1024**3:.0f}GB {pct:.0f}%"`
for `psutil.disk_usage("/")` reporting `used`/`total` bytes and `pct` percent. -/
def get_disk (used total : ℕ) (percent : ℚ) : String :=
  "Disk:" ++ fmtF1 ((used : ℚ) / 1024 ^ 3) ++ "/" ++
    fmtF0 ((total : ℚ) / 1024 ^ 3) ++ "GB " ++ fmtF0 percent ++ "%"

/-! ### DataStore

`self._data` is a Python dict, modelled as `String → Option String`.
`refresh` builds a six-entry dict from the collectors and merges it with
`dict.update`; `get` is `self._data.get(key, "")`.  The external readings of
one refresh are packaged in `SysEnv`; collectors whose failures the Python
code does not catch (`get_hostname`, `get_ram_label`'s psutil call,
`get_cpu`'s `cpu_percent`, `get_network`'s psutil traversal, `get_disk`)
abort the whole `refresh` when they fail. -/

structure SysEnv where
  ipConn : Except Unit String
  hostname : Except Unit String
  ramTotal : Except Unit ℕ
  cpuPct : Except Unit ℚ
  tempFile : Except Unit ℤ
  sensors : String → Option ℚ
  netConn : Except Unit Unit
  netIfaces : Except Unit (List IfaceInfo)
  diskInfo : Except Unit (ℕ × ℕ × ℚ)

def DataStore : Type := String → Option String

def storeKeys : List String := ["ip", "hostname", "ram", "cpu", "network", "disk"]

/-- `self._data.update(new)`: keys of `new` overwrite, all others persist. -/
def updateKeys (d : DataStore) (kvs : List (String × String)) : DataStore :=
  fun k =>
    match kvs.lookup k with
    | some v => some v
    | none => d k

/-- `DataStore.refresh`: collect all six metrics, then merge.  An uncaught
collector failure propagates before `_data.update` runs, leaving the dict
untouched. -/
def DataStore.refresh (env : SysEnv) (d : DataStore) : Except Unit DataStore := do
  let host ← env.hostname
  let ram ← env.ramTotal
  let pct ← env.cpuPct
  let ifs ← env.netIfaces
  let dsk ← env.diskInfo
  Except.ok (updateKeys d
    [("ip", get_ip env.ipConn),
     ("hostname", host),
     ("ram", get_ram_label ram),
     ("cpu", get_cpu pct env.tempFile env.sensors),
     ("network", get_network env.netConn ifs),
     ("disk", get_disk dsk.1 dsk.2.1 dsk.2.2)])

/-- `DataStore.__init__`: start from the empty dict and run one synchronous
refresh (a failure there propagates out of the constructor). -/
def DataStore.construct (env : SysEnv) : Except Unit DataStore :=
  DataStore.refresh env (fun _ => none)

/-- `DataStore.get`: `self._data.get(key, "")`. -/
def DataStore.get (d : DataStore) (k : String) : String := (d k).getD ""

/-- One iteration of `background_refresh`: `store.refresh()` with any
exception caught and logged, the store left as it was. -/
def backgroundRefreshStep (env : SysEnv) (d : DataStore) : DataStore :=
  match DataStore.refresh env d with
  | Except.ok d2 => d2
  | Except.error _ => d

/-! ### Main loop

One iteration of the `while True` body, split at the render point.  Per-tick
external inputs: the wall-clock reading `t`, the current store `d`, the
`get_time()` string, and the font metrics.  `last_page` starts at `-1`. -/

structure LoopState where
  s1 : Scroller
  s2 : Scroller
  s3 : Scroller
  s4 : Scroller
  lastPage : ℤ
deriving DecidableEq, Repr

def LoopState.init : LoopState :=
  { s1 := Scroller.init LINE_HEIGHT, s2 := Scroller.init LINE_HEIGHT,
    s3 := Scroller.init LINE_HEIGHT, s4 := Scroller.init LINE_HEIGHT,
    lastPage := -1 }

/-- The page-flip block: on `page != last_page`, reset the bottom scrollers
and record the page. -/
def flipStep (st : LoopState) (page : ℤ) : LoopState :=
  if page ≠ st.lastPage then
    { st with s3 := st.s3.reset, s4 := st.s4.reset, lastPage := page }
  else st

/-- The compose-text block: `set` each scroller from the store (lines 3 and 4
according to the page; line 4 of page 1 is the live time string). -/
def composeStep (M : Metrics) (st : LoopState) (page : ℤ) (d : DataStore)
    (timeStr : String) : LoopState :=
  { st with
    s1 := st.s1.set M ("IP:" ++ d.get "ip") FontId.bold,
    s2 := st.s2.set M (d.get "hostname" ++ "  " ++ d.get "ram") FontId.default,
    s3 := st.s3.set M (if page = 0 then d.get "cpu" else d.get "disk") FontId.default,
    s4 := st.s4.set M (if page = 0 then d.get "network" else timeStr) FontId.default }

/-- The loop state at the moment `device.display(image)` is called: page
computed from the wall clock, flip handling, then text composition. -/
def renderState (M : Metrics) (st : LoopState) (t : ℚ) (d : DataStore)
    (timeStr : String) : LoopState :=
  composeStep M (flipStep st (pageOf t)) (pageOf t) d timeStr

/-- A whole loop iteration: render state, then advance all four scrollers. -/
def mainTick (M : Metrics) (st : LoopState) (t : ℚ) (d : DataStore)
    (timeStr : String) : LoopState :=
  let r := renderState M st t d timeStr
  { r with s1 := r.s1.tick, s2 := r.s2.tick, s3 := r.s3.tick, s4 := r.s4.tick }

/-- The frame composed by one iteration: blank image, the four lines drawn
into their bands, then the divider, then the two page-indicator dots at
`dot_y = DISPLAY_H - 5`.  `g1..g4` are the glyph rasterisations of the four
current texts and `e1, e2` the painted dot contents. -/
def renderFrame (r : LoopState) (g1 g2 g3 g4 e1 e2 : ℕ → ℕ → Bool) : Image :=
  let i1 := r.s1.draw_onto g1 blankImage Y_LINE1
  let i2 := r.s2.draw_onto g2 i1 Y_LINE2
  let i3 := r.s3.draw_onto g3 i2 Y_LINE3
  let i4 := r.s4.draw_onto g4 i3 Y_LINE4
  let i5 := drawHLine i4 Y_DIVIDER 0 DISPLAY_W
  let i6 := drawEllipse e1 i5 (DISPLAY_W - 13) (DISPLAY_H - 5) (DISPLAY_W - 9) (DISPLAY_H - 5 + 4)
  drawEllipse e2 i6 (DISPLAY_W - 7) (DISPLAY_H - 5) (DISPLAY_W - 3) (DISPLAY_H - 5 + 4)

/-! ### Evaluation lemmas for the formatting helpers -/

lemma rndHalfEven_of_lt_half (q : ℚ) (z : ℤ) (hle : (z : ℚ) ≤ q)
    (hlt : q - z < 1 / 2) : rndHalfEven q = z := by
  have hfl : ⌊q⌋ = z := by
    rw [Int.floor_eq_iff]
    exact ⟨hle, by linarith⟩
  unfold rndHalfEven
  rw [Int.fract, hfl, if_pos (by linarith)]

lemma rndHalfEven_of_half_lt (q : ℚ) (z : ℤ) (hlt : 1 / 2 < q - z)
    (hup : q < z + 1) : rndHalfEven q = z + 1 := by
  have hfl : ⌊q⌋ = z := by
    rw [Int.floor_eq_iff]
    exact ⟨by linarith, by linarith⟩
  unfold rndHalfEven
  rw [Int.fract, hfl, if_neg (by linarith), if_pos (by linarith)]

lemma fmtF0_eval (q : ℚ) (z : ℤ) (h : rndHalfEven q = z) :
    fmtF0 q = toString z := by
  rw [fmtF0, h]

lemma fmtF1_eval (q : ℚ) (z : ℕ) (h : rndHalfEven (q * 10) = (z : ℤ)) :
    fmtF1 q = toString (z / 10) ++ "." ++ toString (z % 10) := by
  rw [fmtF1]
  simp only [h, Int.toNat_natCast, if_pos (Int.natCast_nonneg z)]

/-! ### C9: disk-line formatting -/

/-- C9.  The disk line is `Disk:<used>/<total>GB <pct>%` with used bytes shown
in GB to one decimal place, total GB as an integer, percent as an integer: the
scenario of the claim (12.3 GB used of 59 GB total at 21%, i.e. 13207024435
used bytes of 63350767616 total bytes) formats exactly as
`"Disk:12.3/59GB 21%"`; a second reading (2 GB of 8 GB at 25%) shows the
one-decimal used field as `"2.0"` and the integer fields without decimals. -/
theorem C9_disk_line_format :
    get_disk 13207024435 (59 * 1024 ^ 3) 21 = "Disk:12.3/59GB 21%" ∧
    get_disk (2 * 1024 ^ 3) (8 * 1024 ^ 3) 25 = "Disk:2.0/8GB 25%" := by
  constructor
  · rw [get_disk,
      fmtF1_eval _ 123 (by
        apply rndHalfEven_of_half_lt _ 122 <;> norm_num),
      fmtF0_eval _ 59 (by
        apply rndHalfEven_of_lt_half _ 59 <;> norm_num),
      fmtF0_eval _ 21 (by
        apply rndHalfEven_of_lt_half _ 21 <;> norm_num)]
    decide
  · rw [get_disk,
      fmtF1_eval _ 20 (by
        apply rndHalfEven_of_lt_half _ 20 <;> norm_num),
      fmtF0_eval _ 8 (by
        apply rndHalfEven_of_lt_half _ 8 <;> norm_num),
      fmtF0_eval _ 25 (by
        apply rndHalfEven_of_lt_half _ 25 <;> norm_num)]
    decide

/-! ### C10: RAM label tiers -/

/-- C10.  `get_ram_label` returns one of exactly three strings, chosen
monotonically by thresholds on the total memory: below 3 GiB it is `"2GB"`,
from 3 GiB up to below 6 GiB it is `"4GB"`, and from 6 GiB up it is `"8GB"`. -/
theorem C10_ram_label_tiers (total : ℕ) :
    (get_ram_label total = "2GB" ∨ get_ram_label total = "4GB" ∨
      get_ram_label total = "8GB") ∧
    (total < 3 * 1024 ^ 3 → get_ram_label total = "2GB") ∧
    (3 * 1024 ^ 3 ≤ total → total < 6 * 1024 ^ 3 → get_ram_label total = "4GB") ∧
    (6 * 1024 ^ 3 ≤ total → get_ram_label total = "8GB") := by
  have hq : (0 : ℚ) < 1024 ^ 3 := by norm_num
  have h3 : ((total : ℚ) / 1024 ^ 3 < 3) ↔ total < 3 * 1024 ^ 3 := by
    rw [div_lt_iff₀ hq]
    norm_cast
  have h6 : ((total : ℚ) / 1024 ^ 3 < 6) ↔ total < 6 * 1024 ^ 3 := by
    rw [div_lt_iff₀ hq]
    norm_cast
  unfold get_ram_label
  refine ⟨by split_ifs <;> simp, fun h => ?_, fun h1 h2 => ?_, fun h => ?_⟩
  · rw [if_pos (h3.mpr h)]
  · rw [if_neg (by rw [h3]; omega), if_pos (h6.mpr h2)]
  · rw [if_neg (by rw [h3]; omega), if_neg (by rw [h6]; omega)]

/-- Witness for C10 at a concrete 4 GiB total. -/
theorem C10_ram_label_tiers_witness :
    3 * 1024 ^ 3 ≤ (4 * 1024 ^ 3 : ℕ) ∧ (4 * 1024 ^ 3 : ℕ) < 6 * 1024 ^ 3 ∧
      get_ram_label (4 * 1024 ^ 3) = "4GB" :=
  ⟨by norm_num, by norm_num,
    (C10_ram_label_tiers (4 * 1024 ^ 3)).2.2.1 (by norm_num) (by norm_num)⟩

/-! ### C1: wall-clock page selection -/

lemma pageOf_eq_floor (t : ℚ) (h : 0 ≤ t) : pageOf t = ⌊t / 5⌋ % 2 := by
  unfold pageOf pyTrunc
  rw [if_pos (by positivity)]
  norm_num [PAGE_FLIP_SEC]

lemma mainTick_lastPage (M : Metrics) (st : LoopState) (t : ℚ) (d : DataStore)
    (timeStr : String) : (mainTick M st t d timeStr).lastPage = pageOf t := by
  unfold mainTick renderState composeStep flipStep
  by_cases h : pageOf t ≠ st.lastPage
  · rw [if_pos h]
  · rw [if_neg h]
    push_neg at h
    exact h.symm

/-- C1.  The page index the main loop computes each tick is
`⌊wallClockSeconds / 5⌋ % 2`, a pure function of the wall-clock reading alone:
two readings in the same 5-second window give the same page, and as the clock
crosses one boundary (any instant in `[4.9, 5)` versus any in `[5, 5.1]`) the
page flips from 0 to 1 exactly once. -/
theorem C1_page_index (M : Metrics) (st : LoopState) (d : DataStore)
    (timeStr : String) (t t1 t2 : ℚ) :
    (0 ≤ t → (mainTick M st t d timeStr).lastPage = ⌊t / 5⌋ % 2) ∧
    (0 ≤ t1 → ⌊t1 / 5⌋ = ⌊t2 / 5⌋ → pageOf t1 = pageOf t2) ∧
    (49 / 10 ≤ t → t < 5 → pageOf t = 0) ∧
    (5 ≤ t → t ≤ 51 / 10 → pageOf t = 1) := by
  refine ⟨fun h => ?_, fun h1 heq => ?_, fun hlo hhi => ?_, fun hlo hhi => ?_⟩
  · rw [mainTick_lastPage, pageOf_eq_floor t h]
  · have h2 : (0 : ℚ) ≤ t2 := by
      have hf : (0 : ℤ) ≤ ⌊t2 / 5⌋ := by
        rw [← heq]
        exact Int.floor_nonneg.mpr (by positivity)
      have := (Int.floor_le (t2 / 5))
      have h5 : (0 : ℚ) ≤ t2 / 5 := le_trans (by exact_mod_cast hf) this
      linarith
    rw [pageOf_eq_floor t1 h1, pageOf_eq_floor t2 h2, heq]
  · have hfl : ⌊t / 5⌋ = 0 := by
      rw [Int.floor_eq_iff]
      constructor
      · push_cast
        linarith
      · push_cast
        linarith
    rw [pageOf_eq_floor t (by linarith), hfl]
    decide
  · have hfl : ⌊t / 5⌋ = 1 := by
      rw [Int.floor_eq_iff]
      constructor
      · push_cast
        linarith
      · push_cast
        linarith
    rw [pageOf_eq_floor t (by linarith), hfl]
    decide

/-- Witness for C1: at `t = 4.9` and `t = 5.1` the boundary conjuncts apply
concretely, and the main-loop conjunct at `t = 4.9` from the initial state. -/
theorem C1_page_index_witness :
    ((0 : ℚ) ≤ 49 / 10 →
      (mainTick (fun _ _ => 0) LoopState.init (49 / 10) (fun _ => none) "").lastPage =
        ⌊(49 : ℚ) / 10 / 5⌋ % 2) ∧
    ((49 : ℚ) / 10 ≤ 49 / 10 → (49 : ℚ) / 10 < 5 → pageOf (49 / 10) = 0) ∧
    ((5 : ℚ) ≤ 51 / 10 → (51 : ℚ) / 10 ≤ 51 / 10 → pageOf (51 / 10) = 1) :=
  ⟨(C1_page_index (fun _ _ => 0) LoopState.init (fun _ => none) "" (49 / 10) 0 0).1,
   (C1_page_index (fun _ _ => 0) LoopState.init (fun _ => none) "" (49 / 10) 0 0).2.2.1,
   (C1_page_index (fun _ _ => 0) LoopState.init (fun _ => none) "" (51 / 10) 0 0).2.2.2⟩

/-! ### C4: Scroller.set -/

/-- C4.  `set` with the current text and font changes nothing (in particular
a non-zero offset survives); `set` with a different text or font stores the
freshly measured width, classifies the scroller as Scrolling exactly when that
width exceeds the display width, and resets the offset to 0. -/
theorem C4_set_idempotent_or_resets (s : Scroller) (M : Metrics) (text : String)
    (f : FontId) :
    s.set M s.text s.fontv = s ∧
    (text ≠ s.text ∨ f ≠ s.fontv →
      (s.set M text f).offset = 0 ∧
      (s.set M text f).text = text ∧
      (s.set M text f).fontv = f ∧
      (s.set M text f).width = text_px_width M text f ∧
      ((s.set M text f).scrolling = true ↔ DISPLAY_W < text_px_width M text f)) := by
  constructor
  · unfold Scroller.set
    rw [if_neg (by simp)]
  · intro h
    unfold Scroller.set
    rw [if_pos h]
    refine ⟨rfl, rfl, rfl, rfl, ?_⟩
    simp [gt_iff_lt]

/-- Witness for C4 at a concrete scroller with a non-zero offset: setting a
new 200-px-wide text resets the offset and classifies as Scrolling. -/
theorem C4_set_idempotent_or_resets_witness :
    (({ Scroller.init LINE_HEIGHT with offset := 7 } : Scroller).set (fun _ _ => 200) "abc"
        FontId.default).offset = 0 ∧
    (({ Scroller.init LINE_HEIGHT with offset := 7 } : Scroller).set (fun _ _ => 200) "abc"
        FontId.default).text = "abc" ∧
    (({ Scroller.init LINE_HEIGHT with offset := 7 } : Scroller).set (fun _ _ => 200) "abc"
        FontId.default).fontv = FontId.default ∧
    (({ Scroller.init LINE_HEIGHT with offset := 7 } : Scroller).set (fun _ _ => 200) "abc"
        FontId.default).width = 200 ∧
    ((({ Scroller.init LINE_HEIGHT with offset := 7 } : Scroller).set (fun _ _ => 200) "abc"
        FontId.default).scrolling = true ↔ DISPLAY_W < 200) :=
  (C4_set_idempotent_or_resets { Scroller.init LINE_HEIGHT with offset := 7 } (fun _ _ => 200)
    "abc" FontId.default).2 (Or.inl (by decide))

/-! ### C2: Scroller offset invariant and scroll period -/

lemma tick_of_not_scrolling (s : Scroller) (h : s.scrolling = false) :
    s.tick = s := by
  unfold Scroller.tick
  rw [h]
  simp

/-- Invariant of every reachable scroller state: the offset stays strictly
below `width + SCROLL_GAP`, and the Scrolling flag holds exactly when the
stored width exceeds the display width. -/
lemma reachable_inv (s : Scroller) (hr : s.Reachable) :
    s.offset < s.width + SCROLL_GAP ∧ (s.scrolling = true ↔ DISPLAY_W < s.width) := by
  induction hr with
  | init h =>
    constructor
    · simp [Scroller.init, SCROLL_GAP]
    · simp [Scroller.init, DISPLAY_W]
  | set s M text f _ ih =>
    by_cases hc : text ≠ s.text ∨ f ≠ s.fontv
    · unfold Scroller.set
      rw [if_pos hc]
      constructor
      · simp [SCROLL_GAP]
      · simp [gt_iff_lt]
    · unfold Scroller.set
      rw [if_neg hc]
      exact ih
  | reset s _ ih =>
    unfold Scroller.reset
    constructor
    · simp [SCROLL_GAP]
    · exact ih.2
  | tick s _ ih =>
    unfold Scroller.tick
    by_cases hsc : s.scrolling = true
    · simp only [hsc, if_true]
      by_cases hw : s.offset + SCROLL_SPEED ≥ s.width + SCROLL_GAP
      · rw [if_pos hw]
        refine ⟨by simp [SCROLL_GAP], ?_⟩
        simpa [hsc] using ih.2
      · rw [if_neg hw]
        refine ⟨?_, by simpa [hsc] using ih.2⟩
        simp only [SCROLL_SPEED] at hw ⊢
        omega
    · rw [Bool.not_eq_true] at hsc
      rw [hsc]
      simpa using ih

lemma tick_iterate_offset (s : Scroller) (hs : s.scrolling = true) (k : ℕ)
    (hk : s.offset + k < s.width + SCROLL_GAP) :
    Scroller.tick^[k] s = { s with offset := s.offset + k } := by
  induction k with
  | zero => simp
  | succ n ih =>
    rw [Function.iterate_succ_apply', ih (by omega)]
    unfold Scroller.tick
    simp only [hs, if_true]
    rw [if_neg (by simp only [SCROLL_SPEED]; omega)]
    simp [SCROLL_SPEED, Scroller.mk.injEq]
    omega

/-- C2.  Scroller offsets: a Static scroller (`scrolling = false`) is left
unchanged by `tick`; every state reachable by set/reset/tick keeps
`offset < width + SCROLL_GAP` and is Scrolling exactly when its stored width
exceeds the display width; a Scrolling tick adds `SCROLL_SPEED` to the offset
and wraps to exactly 0 on reaching `width + SCROLL_GAP`; and from offset 0 a
Scrolling scroller first returns to offset 0 after exactly
`width + SCROLL_GAP` ticks (the ceiling of `(width+gap)/speed` at speed 1). -/
theorem C2_scroller_offset_invariant (s : Scroller) (k : ℕ) :
    (s.scrolling = false → s.tick = s) ∧
    (s.Reachable →
      s.offset < s.width + SCROLL_GAP ∧ (s.scrolling = true ↔ DISPLAY_W < s.width)) ∧
    (s.scrolling = true → s.offset + SCROLL_SPEED < s.width + SCROLL_GAP →
      s.tick.offset = s.offset + SCROLL_SPEED) ∧
    (s.scrolling = true → s.width + SCROLL_GAP ≤ s.offset + SCROLL_SPEED →
      s.tick.offset = 0) ∧
    (s.scrolling = true → s.offset = 0 → 0 < k → k < s.width + SCROLL_GAP →
      (Scroller.tick^[k] s).offset ≠ 0) ∧
    (s.scrolling = true → s.offset = 0 →
      (Scroller.tick^[s.width + SCROLL_GAP] s).offset = 0) := by
  refine ⟨tick_of_not_scrolling s, reachable_inv s, fun hs h => ?_, fun hs h => ?_,
    fun hs h0 hk0 hk => ?_, fun hs h0 => ?_⟩
  · unfold Scroller.tick
    rw [hs, if_pos rfl, if_neg (by omega)]
  · unfold Scroller.tick
    rw [hs, if_pos rfl, if_pos (by omega)]
  · rw [tick_iterate_offset s hs k (by omega)]
    simp only
    omega
  · have hgap : 0 < s.width + SCROLL_GAP := by simp [SCROLL_GAP]
    rw [show s.width + SCROLL_GAP = (s.width + SCROLL_GAP - 1) + 1 by omega,
      Function.iterate_succ_apply',
      tick_iterate_offset s hs (s.width + SCROLL_GAP - 1) (by omega)]
    unfold Scroller.tick
    simp only [hs, if_true]
    rw [if_pos (by simp only [SCROLL_SPEED]; omega)]

/-- Witness for C2 at the scenario of the claim: a 140-px text set on a fresh
scroller (reachable state, Scrolling since 140 > 128) first returns to offset
0 after exactly 168 ticks — still non-zero at tick 100, zero at tick
`140 + SCROLL_GAP = 168`. -/
theorem C2_scroller_offset_invariant_witness :
    (((Scroller.init LINE_HEIGHT).set (fun _ _ => 140) "IP:192.168.1.50" FontId.default).offset <
        ((Scroller.init LINE_HEIGHT).set (fun _ _ => 140) "IP:192.168.1.50" FontId.default).width +
          SCROLL_GAP) ∧
    (((Scroller.init LINE_HEIGHT).set (fun _ _ => 140) "IP:192.168.1.50" FontId.default).scrolling =
        true ↔
      DISPLAY_W <
        ((Scroller.init LINE_HEIGHT).set (fun _ _ => 140) "IP:192.168.1.50" FontId.default).width) ∧
    (Scroller.tick^[100]
        ((Scroller.init LINE_HEIGHT).set (fun _ _ => 140) "IP:192.168.1.50" FontId.default)).offset ≠
      0 ∧
    (Scroller.tick^[168]
        ((Scroller.init LINE_HEIGHT).set (fun _ _ => 140) "IP:192.168.1.50" FontId.default)).offset =
      0 := by
  have hr : ((Scroller.init LINE_HEIGHT).set (fun _ _ => 140) "IP:192.168.1.50"
      FontId.default).Reachable :=
    Scroller.Reachable.set _ _ _ _ (Scroller.Reachable.init LINE_HEIGHT)
  have hsc : ((Scroller.init LINE_HEIGHT).set (fun _ _ => 140) "IP:192.168.1.50"
      FontId.default).scrolling = true := by decide
  have h0 : ((Scroller.init LINE_HEIGHT).set (fun _ _ => 140) "IP:192.168.1.50"
      FontId.default).offset = 0 := by decide
  have hw : ((Scroller.init LINE_HEIGHT).set (fun _ _ => 140) "IP:192.168.1.50"
      FontId.default).width = 140 := by decide
  refine ⟨((C2_scroller_offset_invariant _ 0).2.1 hr).1,
    ((C2_scroller_offset_invariant _ 0).2.1 hr).2, ?_, ?_⟩
  · exact (C2_scroller_offset_invariant _ 100).2.2.2.2.1 hsc h0 (by decide)
      (by rw [hw]; decide)
  · have := (C2_scroller_offset_invariant _ 0).2.2.2.2.2 hsc h0
    rwa [hw] at this

/-! ### C3: seamless periodic scroll -/

/-- C3.  In Scrolling state the crop window of `draw_onto` always fits inside
the double-width band (`offset + DISPLAY_W ≤ 2·(width + SCROLL_GAP)` for every
reachable offset), and — provided the rasterised text has no pixel at or past
`width + SCROLL_GAP`, which holds of a band whose drawn content is
`width` pixels wide — column `x` of the cropped band equals column
`(offset + x) mod (width + SCROLL_GAP)` of the single text-plus-gap tile:
the scroll is periodic with no wraparound special case. -/
theorem C3_scroll_crop_periodic (s : Scroller) (g : ℕ → ℕ → Bool) (x y : ℕ)
    (hs : s.scrolling = true) (hr : s.Reachable)
    (hg : ∀ c yy, s.width + SCROLL_GAP ≤ c → g c yy = false)
    (hx : x < DISPLAY_W) :
    s.offset + DISPLAY_W ≤ 2 * (s.width + SCROLL_GAP) ∧
    scrollCrop g (s.width + SCROLL_GAP) s.offset x y =
      g ((s.offset + x) % (s.width + SCROLL_GAP)) y := by
  have hinv := reachable_inv s hr
  have hwide : DISPLAY_W < s.width := hinv.2.mp hs
  have hoff : s.offset < s.width + SCROLL_GAP := hinv.1
  have hbound : s.offset + DISPLAY_W ≤ 2 * (s.width + SCROLL_GAP) := by
    simp only [DISPLAY_W, SCROLL_GAP] at hwide hoff ⊢
    omega
  refine ⟨hbound, ?_⟩
  unfold scrollCrop scrollBand
  have hc2 : s.offset + x < 2 * (s.width + SCROLL_GAP) := by omega
  rw [if_pos hc2]
  by_cases hcl : s.offset + x < s.width + SCROLL_GAP
  · rw [Nat.mod_eq_of_lt hcl, decide_eq_false (by omega), Bool.false_and,
      Bool.or_false]
  · push_neg at hcl
    have hmod : (s.offset + x) % (s.width + SCROLL_GAP) =
        s.offset + x - (s.width + SCROLL_GAP) := by
      rw [Nat.mod_eq_sub_mod hcl, Nat.mod_eq_of_lt (by omega)]
    rw [hmod, hg _ y hcl, decide_eq_true (by omega), Bool.true_and,
      Bool.false_or]

/-- Witness for C3: the 140-px text of the end-to-end scenario, a glyph
function supported on its first 140 columns, offset 0 (freshly set), crop
column 5. -/
theorem C3_scroll_crop_periodic_witness :
    ((Scroller.init LINE_HEIGHT).set (fun _ _ => 140) "IP:192.168.1.50" FontId.default).offset +
        DISPLAY_W ≤
      2 * (((Scroller.init LINE_HEIGHT).set (fun _ _ => 140) "IP:192.168.1.50"
          FontId.default).width + SCROLL_GAP) ∧
    scrollCrop (fun c _ => decide (c < 140))
        (((Scroller.init LINE_HEIGHT).set (fun _ _ => 140) "IP:192.168.1.50"
          FontId.default).width + SCROLL_GAP)
        ((Scroller.init LINE_HEIGHT).set (fun _ _ => 140) "IP:192.168.1.50"
          FontId.default).offset 5 0 =
      (fun c _ => decide (c < 140))
        ((((Scroller.init LINE_HEIGHT).set (fun _ _ => 140) "IP:192.168.1.50"
            FontId.default).offset + 5) %
          (((Scroller.init LINE_HEIGHT).set (fun _ _ => 140) "IP:192.168.1.50"
            FontId.default).width + SCROLL_GAP)) 0 :=
  C3_scroll_crop_periodic
    ((Scroller.init LINE_HEIGHT).set (fun _ _ => 140) "IP:192.168.1.50" FontId.default)
    (fun c _ => decide (c < 140)) 5 0 (by decide)
    (Scroller.Reachable.set _ _ _ _ (Scroller.Reachable.init LINE_HEIGHT))
    (fun c yy hc => by
      simp only [decide_eq_false_iff_not, not_lt]
      have hw : ((Scroller.init LINE_HEIGHT).set (fun _ _ => 140) "IP:192.168.1.50"
          FontId.default).width = 140 := by decide
      rw [hw] at hc
      simp only [SCROLL_GAP] at hc
      omega)
    (by decide)

/-! ### C5: page transitions and the four scrollers -/

lemma set_offset_after_reset (s : Scroller) (M : Metrics) (text : String)
    (f : FontId) : (s.reset.set M text f).offset = 0 := by
  unfold Scroller.reset Scroller.set
  split_ifs <;> rfl

lemma set_of_unchanged (s : Scroller) (M : Metrics) :
    s.set M s.text s.fontv = s := by
  unfold Scroller.set
  rw [if_neg (by simp)]

/-- C5.  On a tick whose computed page differs from the previous tick's page,
the two page-dependent scrollers render with offset 0 (reset happens before
the frame is drawn), while the two fixed-line scrollers are untouched by the
transition: they receive exactly their ordinary per-tick `set`, so when their
text and font are unchanged their offsets carry over. -/
theorem C5_page_transition_resets (M : Metrics) (st : LoopState) (t : ℚ)
    (d : DataStore) (timeStr : String) (h : pageOf t ≠ st.lastPage) :
    (renderState M st t d timeStr).s3.offset = 0 ∧
    (renderState M st t d timeStr).s4.offset = 0 ∧
    (renderState M st t d timeStr).s1 =
      st.s1.set M ("IP:" ++ d.get "ip") FontId.bold ∧
    (renderState M st t d timeStr).s2 =
      st.s2.set M (d.get "hostname" ++ "  " ++ d.get "ram") FontId.default ∧
    (st.s1.text = "IP:" ++ d.get "ip" → st.s1.fontv = FontId.bold →
      (renderState M st t d timeStr).s1.offset = st.s1.offset) ∧
    (st.s2.text = d.get "hostname" ++ "  " ++ d.get "ram" →
      st.s2.fontv = FontId.default →
      (renderState M st t d timeStr).s2.offset = st.s2.offset) := by
  unfold renderState composeStep flipStep
  rw [if_pos h]
  refine ⟨set_offset_after_reset _ _ _ _, set_offset_after_reset _ _ _ _, rfl, rfl,
    fun ht hf => ?_, fun ht hf => ?_⟩
  · simp only
    rw [show ("IP:" ++ d.get "ip") = st.s1.text from ht.symm, ← hf,
      set_of_unchanged st.s1 M]
  · simp only
    rw [show (d.get "hostname" ++ "  " ++ d.get "ram") = st.s2.text from ht.symm,
      ← hf, set_of_unchanged st.s2 M]

/-- Witness for C5: initial `last_page = -1`, wall clock 0 (page 0, a
transition), a store with no entries; the fixed lines carry non-zero offsets
3 and 4 across the transition while lines 3 and 4 render at offset 0. -/
theorem C5_page_transition_resets_witness :
    (renderState (fun _ _ => 0)
        { LoopState.init with
          s1 := { Scroller.init LINE_HEIGHT with text := "IP:", fontv := FontId.bold, offset := 3 },
          s2 := { Scroller.init LINE_HEIGHT with text := "  ", offset := 4 } }
        0 (fun _ => none) "").s3.offset = 0 ∧
    (renderState (fun _ _ => 0)
        { LoopState.init with
          s1 := { Scroller.init LINE_HEIGHT with text := "IP:", fontv := FontId.bold, offset := 3 },
          s2 := { Scroller.init LINE_HEIGHT with text := "  ", offset := 4 } }
        0 (fun _ => none) "").s4.offset = 0 ∧
    (renderState (fun _ _ => 0)
        { LoopState.init with
          s1 := { Scroller.init LINE_HEIGHT with text := "IP:", fontv := FontId.bold, offset := 3 },
          s2 := { Scroller.init LINE_HEIGHT with text := "  ", offset := 4 } }
        0 (fun _ => none) "").s1.offset = 3 ∧
    (renderState (fun _ _ => 0)
        { LoopState.init with
          s1 := { Scroller.init LINE_HEIGHT with text := "IP:", fontv := FontId.bold, offset := 3 },
          s2 := { Scroller.init LINE_HEIGHT with text := "  ", offset := 4 } }
        0 (fun _ => none) "").s2.offset = 4 := by
  have h := C5_page_transition_resets (fun _ _ => 0)
    { LoopState.init with
      s1 := { Scroller.init LINE_HEIGHT with text := "IP:", fontv := FontId.bold, offset := 3 },
      s2 := { Scroller.init LINE_HEIGHT with text := "  ", offset := 4 } }
    0 (fun _ => none) ""
    (by rw [pageOf_eq_floor 0 le_rfl]; norm_num [LoopState.init])
  exact ⟨h.1, h.2.1, h.2.2.2.2.1 (by decide) rfl, h.2.2.2.2.2 (by decide) rfl⟩

/-! ### C6: the six fixed keys are always present -/

/-- A successful refresh produces a store holding a value for each of the six
fixed keys, whatever the previous store held. -/
lemma refresh_ok_keys (env : SysEnv) (d d2 : DataStore)
    (h : DataStore.refresh env d = Except.ok d2) :
    ∀ key ∈ storeKeys, (d2 key).isSome = true := by
  unfold DataStore.refresh at h
  cases hh : env.hostname with
  | error e => rw [hh] at h; exact Except.noConfusion h
  | ok host =>
  cases hram : env.ramTotal with
  | error e => rw [hh, hram] at h; exact Except.noConfusion h
  | ok ram =>
  cases hpct : env.cpuPct with
  | error e => rw [hh, hram, hpct] at h; exact Except.noConfusion h
  | ok pct =>
  cases hifs : env.netIfaces with
  | error e => rw [hh, hram, hpct, hifs] at h; exact Except.noConfusion h
  | ok ifs =>
  cases hdsk : env.diskInfo with
  | error e =>
    rw [hh, hram, hpct, hifs, hdsk] at h
    exact Except.noConfusion h
  | ok dsk =>
    rw [hh, hram, hpct, hifs, hdsk] at h
    have hd2 : updateKeys d
        [("ip", get_ip env.ipConn), ("hostname", host), ("ram", get_ram_label ram),
         ("cpu", get_cpu pct env.tempFile env.sensors),
         ("network", get_network env.netConn ifs),
         ("disk", get_disk dsk.1 dsk.2.1 dsk.2.2)] = d2 := Except.ok.inj h
    intro key hk
    rw [← hd2]
    simp only [storeKeys, List.mem_cons, List.not_mem_nil, or_false] at hk
    rcases hk with rfl | rfl | rfl | rfl | rfl | rfl <;>
      simp [updateKeys, List.lookup]

/-- C6.  From construction on, the store has a string for each of the six
fixed keys: a successful construction populates all six, any
background-refresh step preserves that (whether its own refresh succeeds or
fails), and `get` is total — the stored string for a present key, `""` for an
absent one. -/
theorem C6_store_always_populated (env env2 : SysEnv) (d d0 : DataStore)
    (k v : String) :
    (DataStore.construct env = Except.ok d0 →
      ∀ key ∈ storeKeys, (d0 key).isSome = true) ∧
    ((∀ key ∈ storeKeys, (d key).isSome = true) →
      ∀ key ∈ storeKeys, (backgroundRefreshStep env2 d key).isSome = true) ∧
    (d k = some v → d.get k = v) ∧
    (d k = none → d.get k = "") := by
  refine ⟨fun h => refresh_ok_keys env (fun _ => none) d0 h, fun hall => ?_,
    fun h => ?_, fun h => ?_⟩
  · intro key hk
    unfold backgroundRefreshStep
    cases hr : DataStore.refresh env2 d with
    | ok d2 => exact refresh_ok_keys env2 d d2 hr key hk
    | error e => exact hall key hk
  · rw [DataStore.get, h]
    rfl
  · rw [DataStore.get, h]
    rfl

/-- Witness for C6 with an all-ok environment and the store it constructs. -/
theorem C6_store_always_populated_witness :
    (∀ key ∈ storeKeys,
      ((updateKeys (fun _ => none)
        [("ip", get_ip (Except.ok "192.168.1.50")), ("hostname", "pi"),
         ("ram", get_ram_label (4 * 1024 ^ 3)),
         ("cpu", get_cpu 10 (Except.ok 45000) (fun _ => none)),
         ("network", get_network (Except.ok ()) []),
         ("disk", get_disk 1 2 3)] : DataStore) key).isSome = true) ∧
    (∀ key ∈ storeKeys,
      (backgroundRefreshStep
        { ipConn := Except.ok "192.168.1.50", hostname := Except.ok "pi",
          ramTotal := Except.ok (4 * 1024 ^ 3), cpuPct := Except.ok 10,
          tempFile := Except.ok 45000, sensors := fun _ => none,
          netConn := Except.ok (), netIfaces := Except.ok [],
          diskInfo := Except.error () }
        (fun _ => some "v") key).isSome = true) ∧
    DataStore.get (fun _ => some "v") "ip" = "v" := by
  have h := C6_store_always_populated
    { ipConn := Except.ok "192.168.1.50", hostname := Except.ok "pi",
      ramTotal := Except.ok (4 * 1024 ^ 3), cpuPct := Except.ok 10,
      tempFile := Except.ok 45000, sensors := fun _ => none,
      netConn := Except.ok (), netIfaces := Except.ok [],
      diskInfo := Except.ok (1, 2, 3) }
    { ipConn := Except.ok "192.168.1.50", hostname := Except.ok "pi",
      ramTotal := Except.ok (4 * 1024 ^ 3), cpuPct := Except.ok 10,
      tempFile := Except.ok 45000, sensors := fun _ => none,
      netConn := Except.ok (), netIfaces := Except.ok [],
      diskInfo := Except.error () }
    (fun _ => some "v")
    (updateKeys (fun _ => none)
      [("ip", get_ip (Except.ok "192.168.1.50")), ("hostname", "pi"),
       ("ram", get_ram_label (4 * 1024 ^ 3)),
       ("cpu", get_cpu 10 (Except.ok 45000) (fun _ => none)),
       ("network", get_network (Except.ok ()) []),
       ("disk", get_disk 1 2 3)])
    "ip" "v"
  exact ⟨h.1 rfl, h.2.1 (fun key hk => rfl), h.2.2.1 rfl⟩

/-! ### C7: best-effort refresh -/

/-- When the disk reading fails, `refresh` raises before `_data.update` runs:
the whole refresh reports failure regardless of the other readings. -/
lemma refresh_error_of_disk (env : SysEnv) (d : DataStore)
    (h : env.diskInfo = Except.error ()) :
    DataStore.refresh env d = Except.error () := by
  unfold DataStore.refresh
  cases hh : env.hostname with
  | error e => cases e; rfl
  | ok host =>
  cases hram : env.ramTotal with
  | error e => cases e; rfl
  | ok ram =>
  cases hpct : env.cpuPct with
  | error e => cases e; rfl
  | ok pct =>
  cases hifs : env.netIfaces with
  | error e => cases e; rfl
  | ok ifs =>
    rw [h]
    rfl

/-- C7.  Refresh is best-effort per metric: a failed IP probe does not abort
the refresh — the key gets the safe default `"No IP"` while every other key
receives its freshly collected value (all six stay present); a failed
temperature reading with no fallback sensor yields the zeroed default
`T:0.0C` inside the CPU string; and a metric whose failure is not caught
inside its collector (disk here) makes the background-refresh step leave the
cache exactly at its last-known-good contents, surfacing no error. -/
theorem C7_refresh_best_effort (env : SysEnv) (d : DataStore) (pct : ℚ)
    (host : String) (ram : ℕ) (ifs : List IfaceInfo) (dsk : ℕ × ℕ × ℚ) :
    (env.ipConn = Except.error () → env.hostname = Except.ok host →
      env.ramTotal = Except.ok ram → env.cpuPct = Except.ok pct →
      env.netIfaces = Except.ok ifs → env.diskInfo = Except.ok dsk →
      ∃ d2, DataStore.refresh env d = Except.ok d2 ∧
        DataStore.get d2 "ip" = "No IP" ∧
        ∀ key ∈ storeKeys, (d2 key).isSome = true) ∧
    (env.tempFile = Except.error () → (∀ kk, env.sensors kk = none) →
      cpuTemp env.tempFile env.sensors = 0 ∧
      get_cpu pct env.tempFile env.sensors = "CPU:" ++ fmtF0 pct ++ "%  T:0.0C") ∧
    (env.diskInfo = Except.error () → backgroundRefreshStep env d = d) := by
  refine ⟨fun hip hh hram hpct hifs hdsk => ?_, fun htf hsen => ?_, fun hdsk => ?_⟩
  · have hok : DataStore.refresh env d = Except.ok (updateKeys d
        [("ip", get_ip env.ipConn), ("hostname", host), ("ram", get_ram_label ram),
         ("cpu", get_cpu pct env.tempFile env.sensors),
         ("network", get_network env.netConn ifs),
         ("disk", get_disk dsk.1 dsk.2.1 dsk.2.2)]) := by
      unfold DataStore.refresh
      rw [hh, hram, hpct, hifs, hdsk]
      rfl
    refine ⟨_, hok, ?_, refresh_ok_keys env d _ hok⟩
    rw [hip]
    rfl
  · have htemp : cpuTemp env.tempFile env.sensors = 0 := by
      unfold cpuTemp
      rw [htf, hsen "cpu_thermal", hsen "cpu-thermal", hsen "coretemp"]
      rfl
    refine ⟨htemp, ?_⟩
    unfold get_cpu
    rw [htemp]
    have h10 : fmtF1 0 = "0.0" := by
      rw [fmtF1_eval 0 0 (by
        rw [show ((0 : ℚ) * 10) = 0 by norm_num]
        have := rndHalfEven_of_lt_half 0 0 (by norm_num) (by norm_num)
        exact_mod_cast this)]
      rfl
    rw [h10, String.append_assoc, String.append_assoc]
    congr 1
  · unfold backgroundRefreshStep
    rw [refresh_error_of_disk env d hdsk]

/-- Witness for C7: one environment whose IP probe and temperature file fail
(all uncaught readings succeed), and one whose disk reading fails against a
one-key store. -/
theorem C7_refresh_best_effort_witness :
    (∃ d2, DataStore.refresh
        { ipConn := Except.error (), hostname := Except.ok "pi",
          ramTotal := Except.ok (4 * 1024 ^ 3), cpuPct := Except.ok 10,
          tempFile := Except.error (), sensors := fun _ => none,
          netConn := Except.ok (), netIfaces := Except.ok [],
          diskInfo := Except.ok (1, 2, 3) } (fun _ => some "old") =
          Except.ok d2 ∧
        DataStore.get d2 "ip" = "No IP" ∧
        ∀ key ∈ storeKeys, (d2 key).isSome = true) ∧
    cpuTemp (Except.error ()) (fun _ => none) = 0 ∧
    backgroundRefreshStep
        { ipConn := Except.ok "192.168.1.50", hostname := Except.ok "pi",
          ramTotal := Except.ok (4 * 1024 ^ 3), cpuPct := Except.ok 10,
          tempFile := Except.ok 45000, sensors := fun _ => none,
          netConn := Except.ok (), netIfaces := Except.ok [],
          diskInfo := Except.error () } (fun _ => some "old") =
      (fun _ => some "old") := by
  refine ⟨?_, ?_, ?_⟩
  · exact (C7_refresh_best_effort
      { ipConn := Except.error (), hostname := Except.ok "pi",
        ramTotal := Except.ok (4 * 1024 ^ 3), cpuPct := Except.ok 10,
        tempFile := Except.error (), sensors := fun _ => none,
        netConn := Except.ok (), netIfaces := Except.ok [],
        diskInfo := Except.ok (1, 2, 3) } (fun _ => some "old") 10 "pi"
      (4 * 1024 ^ 3) [] (1, 2, 3)).1 rfl rfl rfl rfl rfl rfl
  · exact ((C7_refresh_best_effort
      { ipConn := Except.error (), hostname := Except.ok "pi",
        ramTotal := Except.ok (4 * 1024 ^ 3), cpuPct := Except.ok 10,
        tempFile := Except.error (), sensors := fun _ => none,
        netConn := Except.ok (), netIfaces := Except.ok [],
        diskInfo := Except.ok (1, 2, 3) } (fun _ => some "old") 10 "pi"
      (4 * 1024 ^ 3) [] (1, 2, 3)).2.1 rfl (fun kk => rfl)).1
  · exact (C7_refresh_best_effort
      { ipConn := Except.ok "192.168.1.50", hostname := Except.ok "pi",
        ramTotal := Except.ok (4 * 1024 ^ 3), cpuPct := Except.ok 10,
        tempFile := Except.ok 45000, sensors := fun _ => none,
        netConn := Except.ok (), netIfaces := Except.ok [],
        diskInfo := Except.error () } (fun _ => some "old") 10 "pi"
      (4 * 1024 ^ 3) [] (1, 2, 3)).2.2 rfl

/-! ### C8: vertical bands and the divider row -/

lemma maxH_set (s : Scroller) (M : Metrics) (text : String) (f : FontId) :
    (s.set M text f).maxH = s.maxH := by
  unfold Scroller.set
  split_ifs <;> rfl

lemma maxH_reset (s : Scroller) : s.reset.maxH = s.maxH := rfl

lemma maxH_tick (s : Scroller) : s.tick.maxH = s.maxH := by
  unfold Scroller.tick
  split_ifs <;> rfl

lemma drawEllipse_outside_rows (shape : ℕ → ℕ → Bool) (img : Image)
    (x0 y0 x1 y1 px py : ℕ) (h : ¬ (y0 ≤ py ∧ py ≤ y1)) :
    drawEllipse shape img x0 y0 x1 y1 px py = img px py := by
  unfold drawEllipse
  exact if_neg (by tauto)

lemma drawHLine_hit (img : Image) (yr x0 x1 px py : ℕ)
    (h : py = yr ∧ x0 ≤ px ∧ px ≤ x1 ∧ px < DISPLAY_W ∧ py < DISPLAY_H) :
    drawHLine img yr x0 x1 px py = true := by
  unfold drawHLine
  exact if_pos h

lemma mainTick_maxH (M : Metrics) (st : LoopState) (t : ℚ) (d : DataStore)
    (timeStr : String) :
    (mainTick M st t d timeStr).s1.maxH = st.s1.maxH ∧
    (mainTick M st t d timeStr).s2.maxH = st.s2.maxH ∧
    (mainTick M st t d timeStr).s3.maxH = st.s3.maxH ∧
    (mainTick M st t d timeStr).s4.maxH = st.s4.maxH := by
  unfold mainTick renderState composeStep flipStep
  split_ifs <;>
    simp [maxH_tick, maxH_set, maxH_reset]

/-- C8.  Every line is confined to its band: `draw_onto` at row `y` leaves
every pixel outside rows `[y, y + max_h)` untouched, whatever the glyphs do,
and the loop never alters any scroller's band height.  The divider is drawn
after the four lines, and the page-indicator dots at the bottom edge do not
reach its row, so the composed frame has pixel row `Y_DIVIDER` fully lit
across the display width. -/
theorem C8_bands_and_divider (s : Scroller) (g : ℕ → ℕ → Bool) (img : Image)
    (M : Metrics) (st : LoopState) (t : ℚ) (d : DataStore) (timeStr : String)
    (r : LoopState) (g1 g2 g3 g4 e1 e2 : ℕ → ℕ → Bool) (y px py : ℕ) :
    (¬ (y ≤ py ∧ py < y + s.maxH) → s.draw_onto g img y px py = img px py) ∧
    ((mainTick M st t d timeStr).s1.maxH = st.s1.maxH ∧
     (mainTick M st t d timeStr).s2.maxH = st.s2.maxH ∧
     (mainTick M st t d timeStr).s3.maxH = st.s3.maxH ∧
     (mainTick M st t d timeStr).s4.maxH = st.s4.maxH) ∧
    (px < DISPLAY_W → renderFrame r g1 g2 g3 g4 e1 e2 px Y_DIVIDER = true) := by
  refine ⟨fun h => ?_, mainTick_maxH M st t d timeStr, fun hpx => ?_⟩
  · unfold Scroller.draw_onto pasteBand
    split_ifs with hsc <;> exact if_neg (by tauto)
  · simp only [renderFrame]
    rw [drawEllipse_outside_rows _ _ _ _ _ _ _ _ (by decide),
      drawEllipse_outside_rows _ _ _ _ _ _ _ _ (by decide),
      drawHLine_hit _ _ _ _ _ _ ⟨rfl, Nat.zero_le px, Nat.le_of_lt hpx, hpx,
        by decide⟩]

/-- Witness for C8: a fresh 14-px-band scroller drawing at the top line leaves
the divider row of a blank image untouched, and the composed frame from the
initial loop state lights column 0 of the divider row. -/
theorem C8_bands_and_divider_witness :
    ((Scroller.init LINE_HEIGHT).draw_onto (fun _ _ => true) blankImage Y_LINE1 0 Y_DIVIDER =
      blankImage 0 Y_DIVIDER) ∧
    renderFrame LoopState.init (fun _ _ => true) (fun _ _ => true)
        (fun _ _ => true) (fun _ _ => true) (fun _ _ => true) (fun _ _ => true) 0
        Y_DIVIDER = true := by
  have h := C8_bands_and_divider (Scroller.init LINE_HEIGHT) (fun _ _ => true) blankImage
    (fun _ _ => 0) LoopState.init 0 (fun _ => none) "" LoopState.init
    (fun _ _ => true) (fun _ _ => true) (fun _ _ => true) (fun _ _ => true)
    (fun _ _ => true) (fun _ _ => true) Y_LINE1 0 Y_DIVIDER
  exact ⟨h.1 (by decide), h.2.2 (by decide)⟩

end OledMonitor
